import Mathlib

/-!
Verification development for the ai_morpheus backend.

The definitions below are a shallow embedding of the core of the
repository: the sandboxed Python executor (`SandboxedPythonREPLRun` in
ai.py), the tool registries (`AI.tools` / `AI.tools_no_advanced`), the
streaming agent loop (`AI.get_stream_response` and
`AI.get_stream_response_no_advanced`), the web tools
(`GoogleSearchRun` / `FetchContentFromURLRun`), and the HTTP streaming
boundary (`event_stream` in main.py, `Controller.get_streaming_response`
in controller.py).

Conventions of the embedding:
- A code string handed to the executor is represented by its parse
  outcome (`ParseResult`): either a syntax error, or the parsed body, a
  list of statements of the Python fragment modelled here.  Both
  `ast.parse` inside `_is_safe_code` and `exec` parse the same string,
  so the parse outcome determines the executor behaviour.
- The modelled executable fragment covers literals, names, `+`,
  assignments, expression statements, and calls; calls on the `plt`
  binding model the matplotlib surface (figure creation, drawing,
  clearing), calls on the other sandbox module bindings are opaque
  no-ops, and calls to anything else are modelled as raising, as they
  would in Python (NameError / TypeError).
- matplotlib's PNG serialization is external library behaviour; it is
  modelled as the 8-byte PNG signature followed by the current figure's
  drawn content reduced to bytes.  Every serialized figure is therefore
  a non-empty byte string, as every real PNG is.
- Effectful tool internals (network, HTML conversion) are abstracted as
  an environment record of fallible operations (`WebEnv`); exceptions
  are `Except.error`.
-/

/-- Python values of the modelled fragment. -/
inductive PyValue where
  | vInt (n : Int)
  | vStr (s : String)
  | vNone
deriving DecidableEq, Repr

/- Expressions of the modelled Python fragment (mirrors the ast node
kinds the code inspects: Name, Attribute, Call, constants, BinOp). -/
mutual
inductive PyExpr where
  | name (id : String)
  | attr (obj : PyExpr) (field : String)
  | call (func : PyExpr) (args : PyArgs)
  | constInt (n : Int)
  | constStr (s : String)
  | binAdd (l r : PyExpr)
inductive PyArgs where
  | nil
  | cons (head : PyExpr) (tail : PyArgs)
end

deriving instance DecidableEq for PyExpr
deriving instance DecidableEq for PyArgs

/-- Statements of the modelled Python fragment. -/
inductive PyStmt where
  | exprStmt (e : PyExpr)
  | assign (target : String) (e : PyExpr)
deriving DecidableEq

/-- Outcome of parsing a code string: `ast.parse` either raises
SyntaxError or yields a module body. -/
inductive ParseResult where
  | parseFail
  | parsed (body : List PyStmt)
deriving DecidableEq

/-- The deny-list of `SandboxedPythonREPLRun._is_safe_code`
(ai.py:55 and ai.py:58). -/
def denyList : List String := ["open", "file", "execfile", "eval", "exec", "__import__"]

/-- Does a call target match the deny-list check: a direct `ast.Name`
whose id is denied, or an `ast.Attribute` whose attr is denied
(ai.py:54-59)? -/
def deniedTarget : PyExpr → Bool
  | .name id => denyList.contains id
  | .attr _ field => denyList.contains field
  | _ => false

/- Walk of all expression nodes looking for a `Call` whose target is
denied; models the `ast.walk` loop of `_is_safe_code` restricted to
expression subtrees. -/
mutual
def exprHasDeniedCall : PyExpr → Bool
  | .name _ => false
  | .constInt _ => false
  | .constStr _ => false
  | .attr obj _ => exprHasDeniedCall obj
  | .binAdd l r => exprHasDeniedCall l || exprHasDeniedCall r
  | .call f args => deniedTarget f || exprHasDeniedCall f || argsHaveDeniedCall args
def argsHaveDeniedCall : PyArgs → Bool
  | .nil => false
  | .cons e rest => exprHasDeniedCall e || argsHaveDeniedCall rest
end

def stmtHasDeniedCall : PyStmt → Bool
  | .exprStmt e => exprHasDeniedCall e
  | .assign _ e => exprHasDeniedCall e

/-- The module body contains some call expression targeting a
deny-listed name. -/
def codeHasDeniedCall (body : List PyStmt) : Bool :=
  body.any stmtHasDeniedCall

/-- `SandboxedPythonREPLRun._is_safe_code` (ai.py:48-62): parse, walk
all nodes, return False on a denied call target; a SyntaxError also
returns False. -/
def isSafeCode : ParseResult → Bool
  | .parseFail => false
  | .parsed body => !(codeHasDeniedCall body)

/-- The sandbox's scratch locals mapping (`self._locals`). -/
abbrev Locals := List (String × PyValue)

def lookupLocal : Locals → String → Option PyValue
  | [], _ => Option.none
  | (k, v) :: rest, key => if k = key then some v else lookupLocal rest key

def setLocal : Locals → String → PyValue → Locals
  | [], k, v => [(k, v)]
  | (k', v') :: rest, k, v =>
      if k' = k then (k, v) :: rest else (k', v') :: setLocal rest k v

/-- The pyplot module state: the open figures, most recent last.  Each
figure is its drawn content, an accumulating list of numbers. -/
structure PltState where
  figs : List (List Nat)
deriving DecidableEq, Repr

def emptyPlt : PltState := ⟨[]⟩

/-- `plt.get_fignums()`: the numbers of the open figures. -/
def getFignums (s : PltState) : List Nat :=
  List.range s.figs.length

/-- `plt.clf()`: clear the current (most recent) figure; with no open
figure, pyplot creates a fresh empty one via gcf. -/
def clf (s : PltState) : PltState :=
  ⟨s.figs.dropLast ++ [[]]⟩

/-- The current (most recent) figure's content, if any. -/
def currentFigure (s : PltState) : Option (List Nat) :=
  s.figs.getLast?

/-- The 8-byte PNG file signature. -/
def pngSig : List Nat := [137, 80, 78, 71, 13, 10, 26, 10]

/-- `plt.savefig(buf, format='png')` followed by reading the buffer:
the PNG bytes of the current figure (PNG signature, then the figure's
content reduced to bytes). -/
def savefigPng (s : PltState) : List Nat :=
  pngSig ++ (s.figs.getLastD []).map (· % 256)

/-- Reduce drawn argument values to figure content. -/
def pyValByte : PyValue → Nat
  | .vInt n => n.natAbs
  | .vStr s => s.length
  | .vNone => 0

/-- Effect of a `plt.<meth>(vals)` call on the pyplot state. -/
def applyPlt (meth : String) (vals : List PyValue) (p : PltState) :
    Except String (PyValue × PltState) :=
  if meth = "figure" then
    .ok (.vNone, ⟨p.figs ++ [[]]⟩)
  else if meth = "plot" then
    match p.figs with
    | [] => .ok (.vNone, ⟨[vals.map pyValByte]⟩)
    | figs => .ok (.vNone, ⟨figs.dropLast ++ [figs.getLastD [] ++ vals.map pyValByte]⟩)
  else if meth = "clf" then
    .ok (.vNone, clf p)
  else
    .ok (.vNone, p)

/-- The names bound in the sandbox globals (`self._globals`,
ai.py:39-45). -/
def sandboxModules : List String := ["plt", "matplotlib", "math", "io", "base64"]

/- Evaluation of the modelled expression fragment under `exec` with
the sandbox globals and the scratch locals.  Unknown names raise
NameError and unmodelled calls raise TypeError, as they would in
Python; those exceptions are NOT caught by the executor. -/
mutual
def evalExpr : PyExpr → Locals → PltState → Except String (PyValue × PltState)
  | .constInt n, _, p => .ok (.vInt n, p)
  | .constStr s, _, p => .ok (.vStr s, p)
  | .name x, l, p =>
      match lookupLocal l x with
      | some v => .ok (v, p)
      | Option.none => .error ("NameError: name " ++ x ++ " is not defined")
  | .attr _ _, _, _p => .error "AttributeError"
  | .binAdd a b, l, p => do
      let (va, p1) ← evalExpr a l p
      let (vb, p2) ← evalExpr b l p1
      match va, vb with
      | .vInt m, .vInt n => .ok (.vInt (m + n), p2)
      | .vStr s, .vStr t => .ok (.vStr (s ++ t), p2)
      | _, _ => .error "TypeError: unsupported operand types"
  | .call f args, l, p =>
      match f with
      | .attr (.name mod) meth =>
          if mod = "plt" then do
            let (vals, p1) ← evalArgs args l p
            applyPlt meth vals p1
          else if sandboxModules.contains mod then do
            let (_, p1) ← evalArgs args l p
            .ok (.vNone, p1)
          else do
            let (_, _) ← evalArgs args l p
            .error ("NameError: name " ++ mod ++ " is not defined")
      | _ => do
          let (_, _) ← evalArgs args l p
          .error "TypeError: object is not callable"
def evalArgs : PyArgs → Locals → PltState → Except String (List PyValue × PltState)
  | .nil, _, p => .ok ([], p)
  | .cons e rest, l, p => do
      let (v, p1) ← evalExpr e l p
      let (vs, p2) ← evalArgs rest l p1
      .ok (v :: vs, p2)
end

/-- One statement of `exec`.  An expression statement evaluates and
DISCARDS its value; in particular `exec` never binds the interactive
scratch name. -/
def execStmt : PyStmt → Locals → PltState → Except String (Locals × PltState)
  | .exprStmt e, l, p => do
      let (_, p1) ← evalExpr e l p
      .ok (l, p1)
  | .assign x e, l, p => do
      let (v, p1) ← evalExpr e l p
      .ok (setLocal l x v, p1)

/-- `exec(query, self._globals, self._locals)` on the parsed body. -/
def pyExec : List PyStmt → Locals → PltState → Except String (Locals × PltState)
  | [], l, p => .ok (l, p)
  | st :: rest, l, p => do
      let (l1, p1) ← execStmt st l p
      pyExec rest l1 p1

/-- The security rejection string of `SandboxedPythonREPLRun.run`
(ai.py:66). -/
def securityErrorMsg : String := "Error: This code is not allowed for security reasons."

/-- `str(v)` for the modelled values. -/
def pyStr : PyValue → String
  | .vInt n => toString n
  | .vStr s => s
  | .vNone => "None"

/-- A single quote character, used by the inline image markup. -/
def quoteChar : String := String.singleton (Char.ofNat 39)

/-- The inline-image markup produced by the plot branch of `run`
(ai.py:85). -/
def imgTagStart : String := "<img src=" ++ quoteChar ++ "data:image/png;base64,"

def imgTagEnd : String := quoteChar ++ ">"

/-- Base64 alphabet. -/
def b64Alphabet : List Char :=
  ("ABCDEFGHIJKLMNOPQRSTUVWXYZabcdefghijklmnopqrstuvwxyz0123456789+/").toList

def charOfSextet (n : Nat) : Char := b64Alphabet.getD n 'A'

def sextetOfChar (c : Char) : Option Nat :=
  b64Alphabet.findIdx? (fun x => x = c)

/-- Base64-encode a byte list, chunked in threes with padding
(models `base64.b64encode(...).decode('utf-8')`). -/
def encodeChunks : List Nat → List Char
  | [] => []
  | [a] =>
      [charOfSextet (a / 4), charOfSextet (a % 4 * 16), '=', '=']
  | [a, b] =>
      [charOfSextet (a / 4), charOfSextet (a % 4 * 16 + b / 16),
       charOfSextet (b % 16 * 4), '=']
  | a :: b :: c :: rest =>
      charOfSextet (a / 4) :: charOfSextet (a % 4 * 16 + b / 16) ::
      charOfSextet (b % 16 * 4 + c / 64) :: charOfSextet (c % 64) ::
      encodeChunks rest

def base64Encode (bs : List Nat) : String := String.mk (encodeChunks bs)

/-- Base64 decoding, the inverse direction. -/
def decodeChunks : List Char → Option (List Nat)
  | w :: x :: y :: z :: rest =>
      if y = '=' then
        match sextetOfChar w, sextetOfChar x with
        | some s1, some s2 =>
            if z = '=' ∧ rest = [] then some [s1 * 4 + s2 / 16] else Option.none
        | _, _ => Option.none
      else if z = '=' then
        match sextetOfChar w, sextetOfChar x, sextetOfChar y with
        | some s1, some s2, some s3 =>
            if rest = [] then some [s1 * 4 + s2 / 16, s2 % 16 * 16 + s3 / 4]
            else Option.none
        | _, _, _ => Option.none
      else
        match sextetOfChar w, sextetOfChar x, sextetOfChar y, sextetOfChar z with
        | some s1, some s2, some s3, some s4 =>
            (decodeChunks rest).map
              (fun tl => (s1 * 4 + s2 / 16) :: (s2 % 16 * 16 + s3 / 4) ::
                         (s3 % 4 * 64 + s4) :: tl)
        | _, _, _, _ => Option.none
  | [] => some []
  | _ => Option.none

def base64Decode (s : String) : Option (List Nat) := decodeChunks s.toList

/-- `SandboxedPythonREPLRun.run` (ai.py:64-88): safety check, then
exec (with NO failure boundary: a runtime exception propagates), then
either the plot branch (serialize the current figure, base64, clear)
or the scratch-variable branch (`str(self._locals.get('_', ''))`).
The returned triple is (result string, locals after, plt after). -/
def sandboxRun (q : ParseResult) (l : Locals) (p : PltState) :
    Except String (String × Locals × PltState) :=
  if !(isSafeCode q) then .ok (securityErrorMsg, l, p)
  else
    match q with
    | .parseFail => .ok (securityErrorMsg, l, p)
    | .parsed body =>
        match pyExec body l p with
        | .error e => .error e
        | .ok (l1, p1) =>
            if getFignums p1 ≠ [] then
              .ok (imgTagStart ++ base64Encode (savefigPng p1) ++ imgTagEnd,
                   l1, clf p1)
            else
              .ok (pyStr ((lookupLocal l1 "_").getD (.vStr "")), l1, p1)

/-- A tool registry entry (`langchain.agents.Tool`): the name and
description shown to the model. -/
structure ToolEntry where
  name : String
  description : String
deriving DecidableEq, Repr

/-- `AI.tools` (ai.py:141-157): the full registry. -/
def aiTools : List ToolEntry :=
  [⟨"Get Information from the Web",
    "Use it to get information from the web. You can pass a query as a parameter. Summarize the information and provide urls to the sources."⟩,
   ⟨"Fetch Content from Website URL",
    "Use it when you need to get the content of a website. You can pass one url as a parameter."⟩,
   ⟨"Python REPL",
    "Use it for executing Python code, performing calculations, or creating matplotlib plots."⟩]

/-- `AI.tools_no_advanced` (ai.py:158-164): the restricted registry. -/
def aiToolsNoAdvanced : List ToolEntry :=
  [⟨"Respond", "just respond normally"⟩]

/-- `NormalResponseRun.run` (ai.py:128-129): the no-op tool behaviour. -/
def normalResponseRun (_initialQuery : String) : String := "Reply to the user."

/-- `Controller.get_streaming_response` (controller.py:140-149)
dispatches on the string comparison advanced == "true": the full
registry generator on "true", the restricted one otherwise. -/
def selectToolRegistry (advanced : String) : List ToolEntry :=
  if advanced = "true" then aiTools else aiToolsNoAdvanced

/-- One event yielded by the streaming generators; each constructor is
one yield site of `AI.get_stream_response` (ai.py:207-218). -/
inductive StreamEvent where
  | toolName (s : String)
  | toolArgs (s : String)
  | aiMessage (s : String)
  | toolResult (s : String)
  | errorEvent (s : String)
deriving DecidableEq, Repr

def isErrorEvent : StreamEvent → Bool
  | .errorEvent _ => true
  | _ => false

def isAiMessageEvent : StreamEvent → Bool
  | .aiMessage _ => true
  | _ => false

/-- The exact string each yield produces (the f-strings of
ai.py:207-218; the error yield already carries its full text). -/
def renderEvent : StreamEvent → String
  | .toolName s => "Tool Name: " ++ s
  | .toolArgs s => "Tool Args: " ++ s
  | .aiMessage s => "AI Message: " ++ s
  | .toolResult s => "Tool Result: " ++ s
  | .errorEvent s => s

/-- Python whitespace characters stripped by `str.strip()` (ASCII
range). -/
def isPyWhitespace (c : Char) : Bool :=
  c = ' ' || c = '\t' || c = '\n' || c = '\x0d' || c = '\x0b' || c = '\x0c'

/-- `s.strip()` for the ASCII whitespace set. -/
def pythonStrip (s : String) : String :=
  String.mk (((s.toList.dropWhile isPyWhitespace).reverse.dropWhile isPyWhitespace).reverse)

/-- One chunk produced by `agent_executor.stream`: either an 'agent'
result (tool calls proposed, given as rendered name/args pairs, plus
the assistant message content) or a 'tools' result (the tool message
content). -/
inductive AgentStep where
  | agent (toolCalls : List (String × String)) (content : String)
  | tools (content : String)
deriving DecidableEq, Repr

/-- Events yielded for one stream chunk by `AI.get_stream_response`
(ai.py:203-214): every proposed tool call yields its name and args;
assistant text is yielded only when it strips to something non-empty;
a 'tools' chunk yields its content when truthy (non-empty). -/
def stepEvents : AgentStep → List StreamEvent
  | .agent toolCalls content =>
      (toolCalls.flatMap fun tc => [.toolName tc.1, .toolArgs tc.2]) ++
      (if 0 < (pythonStrip content).length then [.aiMessage content] else [])
  | .tools content =>
      if content ≠ "" then [.toolResult content] else []

/-- Events yielded for one stream chunk by
`AI.get_stream_response_no_advanced` (ai.py:253-256): only 'agent'
chunks are inspected and only non-whitespace assistant text is
yielded. -/
def stepEventsNoAdvanced : AgentStep → List StreamEvent
  | .agent _ content =>
      if 0 < (pythonStrip content).length then [.aiMessage content] else []
  | .tools _ => []

/-- The full output of the `AI.get_stream_response` generator.  The
whole body sits in one try/except (ai.py:171-218); `exc = none` is a
run with no exception, and `exc = some (k, msg)` is a run interrupted
by an exception (stringified as `msg`) after `k` events had been
yielded: the except-branch yields exactly one error string and the
generator ends. -/
def streamResponseEvents (steps : List AgentStep) (exc : Option (Nat × String)) :
    List StreamEvent :=
  match exc with
  | Option.none => steps.flatMap stepEvents
  | some (k, msg) =>
      (steps.flatMap stepEvents).take k ++
      [.errorEvent ("Error in get_stream_response: " ++ msg)]

/-- Environment of effectful collaborators for the web tools: the
outcome of the search-results iteration, of each HTTP get, and the
HTML-to-markdown conversion.  An exception is `Except.error`. -/
structure WebEnv where
  searchUrls : Except String (List String)
  httpGet : String → Except String String
  toMarkdown : String → String

/-- The try-block body of `GoogleSearchRun.run` (ai.py:95-109):
collect result URLs, fetch each, concatenate URL/content blocks,
append the fixed instruction suffix. -/
def googleSearchBody (env : WebEnv) (_query : String) : Except String String := do
  let urls ← env.searchUrls
  let content ← urls.foldlM
    (fun acc url => do
      let page ← env.httpGet url
      pure (acc ++ "URL: " ++ url ++ "\n\n " ++ env.toMarkdown page ++ "\n\n"))
    ""
  pure (content ++ "The user requested specific information. Give him this information in a summarized form.")

/-- `GoogleSearchRun.run` (ai.py:94-111): the body under a catch-all
converting any exception to the textual error result. -/
def googleSearchRun (env : WebEnv) (query : String) : String :=
  match googleSearchBody env query with
  | .ok s => s
  | .error e => "An error occurred: " ++ e

/-- The try-block body of `FetchContentFromURLRun.run`
(ai.py:118-120). -/
def fetchContentBody (env : WebEnv) (url : String) : Except String String := do
  let page ← env.httpGet url
  pure (env.toMarkdown page ++ " The user requested this website. Give him the information in a summarized form.")

/-- `FetchContentFromURLRun.run` (ai.py:117-122): same catch-all
policy. -/
def fetchContentRun (env : WebEnv) (url : String) : String :=
  match fetchContentBody env url with
  | .ok s => s
  | .error e => "An error occurred: " ++ e

/-- `Controller.get_streaming_response` (controller.py:143-149)
forwards every delta of the AI generator, dropping None values. -/
def controllerStreamDeltas (deltas : List (Option String)) : List String :=
  deltas.filterMap id

/-- One SSE frame of `event_stream` in main.py:254: each delta is
serialized as exactly one data-prefixed, newline-terminated unit. -/
def sseFrame (delta : String) : String := "data: " ++ delta ++ " \n\n\n\n"

/-- The frames written by `event_stream` (main.py:248-256): one frame
per delta. -/
def eventStreamFrames (deltas : List String) : List String :=
  deltas.map sseFrame

/-- The memory key used for a request.  Both `AI.get_stream_response`
(ai.py:194) and `AI.get_stream_response_no_advanced` (ai.py:244) build
config = thread_id "abc123" and use the single shared
`self.memory` MemorySaver (ai.py:137), no matter which caller identity
(session) issued the request. -/
def memoryKeyForRequest (_sessionId : String) : String := "abc123"

/-- Concrete input: `open("data.txt")`. -/
def openCallBody : List PyStmt :=
  [.exprStmt (.call (.name "open") (.cons (.constStr "data.txt") .nil))]

/-- Concrete input: `os.exec()`, a deny-listed attribute-access call. -/
def osAttrCallBody : List PyStmt :=
  [.exprStmt (.call (.attr (.name "os") "exec") .nil)]

/-- Concrete input: `2+2`. -/
def twoPlusTwoBody : List PyStmt :=
  [.exprStmt (.binAdd (.constInt 2) (.constInt 2))]

/-- Concrete input: `_ = 2+2`. -/
def underscoreAssignBody : List PyStmt :=
  [.assign "_" (.binAdd (.constInt 2) (.constInt 2))]

/-- Concrete input: `plt.plot(1)`. -/
def plotBody : List PyStmt :=
  [.exprStmt (.call (.attr (.name "plt") "plot") (.cons (.constInt 1) .nil))]

/-- Concrete input: `x`, which raises NameError at execution time. -/
def nameErrorBody : List PyStmt := [.exprStmt (.name "x")]

/-- A web-tool environment whose network operations all raise. -/
def downEnv : WebEnv :=
  ⟨.error "network unreachable", fun _ => .error "network unreachable", id⟩

/-- Every base64 alphabet index decodes back to itself. -/
theorem sextetOfChar_charOfSextet : ∀ n < 64, sextetOfChar (charOfSextet n) = some n := by
  decide

/-- No base64 alphabet character is the padding character. -/
theorem charOfSextet_ne_pad : ∀ n < 64, charOfSextet n ≠ '=' := by
  decide

/-- Base64 decoding inverts encoding on byte lists. -/
theorem decodeChunks_encodeChunks :
    ∀ (bs : List Nat), (∀ b ∈ bs, b < 256) →
      decodeChunks (encodeChunks bs) = some bs
  | [], _ => rfl
  | [a], h => by
      have ha : a < 256 := h a (by simp)
      have h1 : sextetOfChar (charOfSextet (a / 4)) = some (a / 4) :=
        sextetOfChar_charOfSextet _ (by omega)
      have h2 : sextetOfChar (charOfSextet (a % 4 * 16)) = some (a % 4 * 16) :=
        sextetOfChar_charOfSextet _ (by omega)
      show decodeChunks [charOfSextet (a / 4), charOfSextet (a % 4 * 16), '=', '='] =
        some [a]
      simp [decodeChunks, h1, h2]
      omega
  | [a, b], h => by
      have ha : a < 256 := h a (by simp)
      have hb : b < 256 := h b (by simp)
      have h1 : sextetOfChar (charOfSextet (a / 4)) = some (a / 4) :=
        sextetOfChar_charOfSextet _ (by omega)
      have h2 : sextetOfChar (charOfSextet (a % 4 * 16 + b / 16)) =
          some (a % 4 * 16 + b / 16) :=
        sextetOfChar_charOfSextet _ (by omega)
      have h3 : sextetOfChar (charOfSextet (b % 16 * 4)) = some (b % 16 * 4) :=
        sextetOfChar_charOfSextet _ (by omega)
      have hy : charOfSextet (b % 16 * 4) ≠ '=' :=
        charOfSextet_ne_pad _ (by omega)
      show decodeChunks [charOfSextet (a / 4), charOfSextet (a % 4 * 16 + b / 16),
        charOfSextet (b % 16 * 4), '='] = some [a, b]
      simp [decodeChunks, hy, h1, h2, h3]
      omega
  | a :: b :: c :: rest, h => by
      have ha : a < 256 := h a (by simp)
      have hb : b < 256 := h b (by simp)
      have hc : c < 256 := h c (by simp)
      have ih := decodeChunks_encodeChunks rest
        (fun x hx => h x (by simp [hx]))
      have h1 : sextetOfChar (charOfSextet (a / 4)) = some (a / 4) :=
        sextetOfChar_charOfSextet _ (by omega)
      have h2 : sextetOfChar (charOfSextet (a % 4 * 16 + b / 16)) =
          some (a % 4 * 16 + b / 16) :=
        sextetOfChar_charOfSextet _ (by omega)
      have h3 : sextetOfChar (charOfSextet (b % 16 * 4 + c / 64)) =
          some (b % 16 * 4 + c / 64) :=
        sextetOfChar_charOfSextet _ (by omega)
      have h4 : sextetOfChar (charOfSextet (c % 64)) = some (c % 64) :=
        sextetOfChar_charOfSextet _ (by omega)
      have hy : charOfSextet (b % 16 * 4 + c / 64) ≠ '=' :=
        charOfSextet_ne_pad _ (by omega)
      have hz : charOfSextet (c % 64) ≠ '=' :=
        charOfSextet_ne_pad _ (by omega)
      show decodeChunks (charOfSextet (a / 4) :: charOfSextet (a % 4 * 16 + b / 16) ::
        charOfSextet (b % 16 * 4 + c / 64) :: charOfSextet (c % 64) ::
        encodeChunks rest) = some (a :: b :: c :: rest)
      simp [decodeChunks, hy, hz, h1, h2, h3, h4, ih]
      omega

/-- Base64 round trip on the string level. -/
theorem base64_roundtrip (bs : List Nat) (h : ∀ b ∈ bs, b < 256) :
    base64Decode (base64Encode bs) = some bs := by
  simpa [base64Decode, base64Encode] using decodeChunks_encodeChunks bs h

/-- Serialized figure bytes are bytes. -/
theorem savefigPng_bytes_lt (s : PltState) : ∀ b ∈ savefigPng s, b < 256 := by
  intro b hb
  rcases List.mem_append.mp hb with h | h
  · simp [pngSig] at h
    omega
  · rcases List.mem_map.mp h with ⟨x, _, rfl⟩
    exact Nat.mod_lt _ (by norm_num)

/-- A serialized figure always starts with the PNG signature, hence is
non-empty. -/
theorem savefigPng_ne_nil (s : PltState) : savefigPng s ≠ [] := by
  simp [savefigPng, pngSig]

/-- The yield sites inside the try-body never produce an error event. -/
theorem stepEvents_no_error (st : AgentStep) :
    ∀ ev ∈ stepEvents st, isErrorEvent ev = false := by
  intro ev hev
  cases st with
  | agent tcs content =>
      simp only [stepEvents] at hev
      rcases List.mem_append.mp hev with h | h
      · rcases List.mem_flatMap.mp h with ⟨tc, _, htc⟩
        simp only [List.mem_cons, List.mem_singleton] at htc
        rcases htc with rfl | rfl | hfalse
        · rfl
        · rfl
        · simp at hfalse
      · split at h
        · simp only [List.mem_singleton] at h
          subst h
          rfl
        · simp at h
  | tools content =>
      simp only [stepEvents] at hev
      split at hev
      · simp only [List.mem_singleton] at hev
        subst hev
        rfl
      · simp at hev

/-- No error event occurs among the events of an exception-free run. -/
theorem normal_events_no_error (steps : List AgentStep) :
    ∀ ev ∈ steps.flatMap stepEvents, isErrorEvent ev = false := by
  intro ev hev
  rcases List.mem_flatMap.mp hev with ⟨st, _, h⟩
  exact stepEvents_no_error st ev h

/-- An assistant-text event carried by `stepEvents` has text that does
not strip to empty. -/
theorem mem_stepEvents_aiMessage (st : AgentStep) (t : String)
    (h : StreamEvent.aiMessage t ∈ stepEvents st) :
    0 < (pythonStrip t).length := by
  cases st with
  | agent tcs content =>
      simp only [stepEvents] at h
      rcases List.mem_append.mp h with h | h
      · rcases List.mem_flatMap.mp h with ⟨tc, _, htc⟩
        simp at htc
      · split at h
        next hc =>
          simp only [List.mem_singleton, StreamEvent.aiMessage.injEq] at h
          subst h
          exact hc
        next hc => simp at h
  | tools content =>
      simp only [stepEvents] at h
      split at h <;> simp at h

/-- Same for the restricted-registry generator. -/
theorem mem_stepEventsNoAdvanced_aiMessage (st : AgentStep) (t : String)
    (h : StreamEvent.aiMessage t ∈ stepEventsNoAdvanced st) :
    0 < (pythonStrip t).length := by
  cases st with
  | agent tcs content =>
      simp only [stepEventsNoAdvanced] at h
      split at h
      next hc =>
        simp only [List.mem_singleton, StreamEvent.aiMessage.injEq] at h
        subst h
        exact hc
      next hc => simp at h
  | tools content => simp [stepEventsNoAdvanced] at h

/-- C1: for every code whose syntax tree contains a call expression
targeting a deny-listed name (directly or as an attribute access), the
safety check returns false and `run` returns the security rejection
string with the scratch locals and the plot state untouched: the exec
branch is unreachable for such input. -/
theorem denied_call_rejected_never_executed (body : List PyStmt)
    (h : codeHasDeniedCall body = true) :
    isSafeCode (.parsed body) = false ∧
    ∀ (l : Locals) (p : PltState),
      sandboxRun (.parsed body) l p = .ok (securityErrorMsg, l, p) := by
  have hs : isSafeCode (.parsed body) = false := by
    simp [isSafeCode, h]
  refine ⟨hs, fun l p => ?_⟩
  simp [sandboxRun, hs]

theorem denied_call_rejected_witness :
    codeHasDeniedCall openCallBody = true ∧
    sandboxRun (.parsed openCallBody) [] emptyPlt = .ok (securityErrorMsg, [], emptyPlt) ∧
    codeHasDeniedCall osAttrCallBody = true ∧
    sandboxRun (.parsed osAttrCallBody) [] emptyPlt = .ok (securityErrorMsg, [], emptyPlt) :=
  ⟨by decide,
   (denied_call_rejected_never_executed openCallBody (by decide)).2 [] emptyPlt,
   by decide,
   (denied_call_rejected_never_executed osAttrCallBody (by decide)).2 [] emptyPlt⟩

/-- C2: whenever the caller selects the restricted registry (any
`advanced` value other than the string "true", in particular false),
the tool list supplied to the model has length exactly one and
contains only the no-op respond tool, whose behaviour is the constant
reply instruction; the search, fetch, and code-execution tools are
never exposed on that path. -/
theorem restricted_registry_single_noop (advanced : String) (h : advanced ≠ "true") :
    (selectToolRegistry advanced).length = 1 ∧
    selectToolRegistry advanced = aiToolsNoAdvanced ∧
    (∀ t ∈ selectToolRegistry advanced,
      t.name = "Respond" ∧
      t.name ≠ "Get Information from the Web" ∧
      t.name ≠ "Fetch Content from Website URL" ∧
      t.name ≠ "Python REPL") ∧
    (∀ q, normalResponseRun q = "Reply to the user.") := by
  have hsel : selectToolRegistry advanced = aiToolsNoAdvanced := by
    simp [selectToolRegistry, h]
  refine ⟨by rw [hsel]; rfl, hsel, ?_, fun q => rfl⟩
  intro t ht
  rw [hsel] at ht
  simp only [aiToolsNoAdvanced, List.mem_singleton] at ht
  subst ht
  exact ⟨rfl, by decide, by decide, by decide⟩

theorem restricted_registry_witness :
    (selectToolRegistry "false").length = 1 ∧
    selectToolRegistry "false" = aiToolsNoAdvanced :=
  ⟨(restricted_registry_single_noop "false" (by decide)).1,
   (restricted_registry_single_noop "false" (by decide)).2.1⟩

/-- C3: any exception interrupting the agent loop makes the streaming
generator end with exactly one error event carrying the stringified
error, emitted last, after the events already produced — no retry, no
resumption; and the sandboxed executor itself has no failure boundary:
a runtime exception of the executed code propagates out of `run`
unchanged. -/
theorem stream_exception_single_error_event :
    (∀ (steps : List AgentStep) (k : Nat) (msg : String),
      ((streamResponseEvents steps (some (k, msg))).filter isErrorEvent).length = 1 ∧
      (streamResponseEvents steps (some (k, msg))).getLast? =
        some (.errorEvent ("Error in get_stream_response: " ++ msg)) ∧
      streamResponseEvents steps (some (k, msg)) =
        (steps.flatMap stepEvents).take k ++
          [.errorEvent ("Error in get_stream_response: " ++ msg)]) ∧
    (∀ (body : List PyStmt) (l : Locals) (p : PltState) (e : String),
      isSafeCode (.parsed body) = true →
      pyExec body l p = .error e →
      sandboxRun (.parsed body) l p = .error e) := by
  constructor
  · intro steps k msg
    have hnoerr : ∀ ev ∈ (steps.flatMap stepEvents).take k, isErrorEvent ev = false :=
      fun ev hev =>
        normal_events_no_error steps ev (List.take_subset k _ hev)
    have hfil : ((steps.flatMap stepEvents).take k).filter isErrorEvent = [] := by
      rw [List.filter_eq_nil_iff]
      intro a ha
      simp [hnoerr a ha]
    refine ⟨?_, ?_, rfl⟩
    · show (((steps.flatMap stepEvents).take k ++
        [StreamEvent.errorEvent ("Error in get_stream_response: " ++ msg)]).filter
          isErrorEvent).length = 1
      rw [List.filter_append, hfil]
      rfl
    · exact List.getLast?_concat _
  · intro body l p e h1 h2
    simp [sandboxRun, h1, h2]

theorem stream_exception_witness :
    ((streamResponseEvents [AgentStep.agent [] "hi"] (some (1, "boom"))).filter
      isErrorEvent).length = 1 ∧
    sandboxRun (.parsed nameErrorBody) [] emptyPlt =
      .error "NameError: name x is not defined" :=
  ⟨(stream_exception_single_error_event.1 [AgentStep.agent [] "hi"] 1 "boom").1,
   stream_exception_single_error_event.2 nameErrorBody [] emptyPlt
     "NameError: name x is not defined" rfl rfl⟩

/-- C4: evidence for the session-isolation code bug.  The memory key
attached to a model invocation is the constant thread id "abc123" for
every request, so two requests under different session identities
share one memory key (and the one shared MemorySaver instance),
contradicting the required per-session keying. -/
theorem memory_key_ignores_session :
    memoryKeyForRequest "alice" = memoryKeyForRequest "bob" ∧
    memoryKeyForRequest "alice" = "abc123" := ⟨rfl, rfl⟩

/-- C5: safe code leaving a pending figure makes `run` return the
inline-image markup: the result starts with the image prefix, its
payload is the base64 encoding of the current figure's PNG bytes,
which decodes back to those non-empty bytes, and the pending figure is
cleared before returning. -/
theorem plot_branch_inline_image (body : List PyStmt) (l l' : Locals)
    (p p' : PltState)
    (h1 : isSafeCode (.parsed body) = true)
    (h2 : pyExec body l p = .ok (l', p'))
    (h3 : p'.figs ≠ []) :
    sandboxRun (.parsed body) l p =
      .ok (imgTagStart ++ base64Encode (savefigPng p') ++ imgTagEnd, l', clf p') ∧
    base64Decode (base64Encode (savefigPng p')) = some (savefigPng p') ∧
    savefigPng p' ≠ [] ∧
    currentFigure (clf p') = some [] := by
  have hf : getFignums p' ≠ [] := by
    simp only [getFignums, ne_eq, List.range_eq_nil]
    simpa [List.length_eq_zero] using h3
  refine ⟨?_, base64_roundtrip _ (savefigPng_bytes_lt p'), savefigPng_ne_nil p', ?_⟩
  · simp [sandboxRun, h1, h2, hf]
  · simp [currentFigure, clf]

theorem plot_branch_witness :
    sandboxRun (.parsed plotBody) [] emptyPlt =
      .ok (imgTagStart ++ base64Encode (savefigPng ⟨[[1]]⟩) ++ imgTagEnd,
           [], clf ⟨[[1]]⟩) ∧
    base64Decode (base64Encode (savefigPng ⟨[[1]]⟩)) = some (savefigPng ⟨[[1]]⟩) := by
  have h := plot_branch_inline_image plotBody [] [] emptyPlt ⟨[[1]]⟩ rfl rfl (by decide)
  exact ⟨h.1, h.2.1⟩

/-- C6 (amended): safe code creating no plot makes `run` return the
stringified scratch variable named underscore when the code stored
one, and the empty string otherwise; in particular, for input code
2+2 the result is the empty string, because `exec` evaluates the
expression statement and discards its value without binding the
scratch variable. -/
theorem scratch_branch_returns_underscore (body : List PyStmt) (l l' : Locals)
    (p p' : PltState)
    (h1 : isSafeCode (.parsed body) = true)
    (h2 : pyExec body l p = .ok (l', p'))
    (h3 : p'.figs = []) :
    sandboxRun (.parsed body) l p =
      .ok (pyStr ((lookupLocal l' "_").getD (.vStr "")), l', p') := by
  have hf : getFignums p' = [] := by
    simp [getFignums, h3]
  simp [sandboxRun, h1, h2, hf]

/-- C6 counterexample: the code 2+2 passes the safety check, creates
no plot, and `run` returns the empty string, not "4". -/
theorem two_plus_two_returns_empty_not_four :
    sandboxRun (.parsed twoPlusTwoBody) [] emptyPlt = .ok ("", [], emptyPlt) ∧
    ("" : String) ≠ "4" := ⟨rfl, by decide⟩

theorem scratch_branch_witness :
    sandboxRun (.parsed underscoreAssignBody) [] emptyPlt =
      .ok (pyStr ((lookupLocal [("_", PyValue.vInt 4)] "_").getD (.vStr "")),
           [("_", PyValue.vInt 4)], emptyPlt) :=
  scratch_branch_returns_underscore underscoreAssignBody [] [("_", .vInt 4)]
    emptyPlt emptyPlt rfl rfl rfl

/-- C7: the streaming generators never emit an assistant-text event
whose text is empty or whitespace-only; a model turn whose assistant
text strips to empty produces no assistant-text event at all. -/
theorem whitespace_text_never_emitted :
    (∀ (st : AgentStep) (ev : StreamEvent) (t : String),
      ev ∈ stepEvents st → ev = .aiMessage t → pythonStrip t ≠ "") ∧
    (∀ (st : AgentStep) (ev : StreamEvent) (t : String),
      ev ∈ stepEventsNoAdvanced st → ev = .aiMessage t → pythonStrip t ≠ "") ∧
    (∀ (tcs : List (String × String)) (content : String),
      pythonStrip content = "" →
      StreamEvent.aiMessage content ∉ stepEvents (.agent tcs content)) := by
  refine ⟨?_, ?_, ?_⟩
  · intro st ev t hmem hev hempty
    subst hev
    have := mem_stepEvents_aiMessage st t hmem
    rw [hempty] at this
    simp at this
  · intro st ev t hmem hev hempty
    subst hev
    have := mem_stepEventsNoAdvanced_aiMessage st t hmem
    rw [hempty] at this
    simp at this
  · intro tcs content hws hmem
    have := mem_stepEvents_aiMessage _ _ hmem
    rw [hws] at this
    simp at this

theorem whitespace_witness :
    pythonStrip "hi" ≠ "" ∧
    StreamEvent.aiMessage " " ∉ stepEvents (.agent [] " ") :=
  ⟨whitespace_text_never_emitted.1 (.agent [] "hi") (.aiMessage "hi") "hi"
     (by decide) rfl,
   whitespace_text_never_emitted.2.2 [] " " (by decide)⟩

/-- C8: any exception of the try-body of the web-search or URL-fetch
tool is caught inside the tool and converted to the textual result
prefixed "An error occurred: "; the tools are total string functions
that never raise past their boundary. -/
theorem web_tools_catch_all (env : WebEnv) (q : String) (e : String) :
    (googleSearchBody env q = .error e →
      googleSearchRun env q = "An error occurred: " ++ e) ∧
    (∀ s, googleSearchBody env q = .ok s → googleSearchRun env q = s) ∧
    (fetchContentBody env q = .error e →
      fetchContentRun env q = "An error occurred: " ++ e) ∧
    (∀ s, fetchContentBody env q = .ok s → fetchContentRun env q = s) := by
  refine ⟨fun h => ?_, fun s h => ?_, fun h => ?_, fun s h => ?_⟩ <;>
    simp [googleSearchRun, fetchContentRun, h]

theorem web_tools_witness :
    googleSearchRun downEnv "q" = "An error occurred: network unreachable" ∧
    fetchContentRun downEnv "u" = "An error occurred: network unreachable" :=
  ⟨(web_tools_catch_all downEnv "q" "network unreachable").1 rfl,
   (web_tools_catch_all downEnv "u" "network unreachable").2.2.1 rfl⟩

/-- C9: the HTTP streaming boundary emits exactly one data-prefixed,
newline-terminated frame per stream event: the frame list has the same
length as the event list, the i-th frame is the framing of the i-th
event's rendered text, and the controller layer passes every rendered
delta through unchanged. -/
theorem one_frame_per_stream_event (events : List StreamEvent) (i : Nat) :
    (eventStreamFrames (events.map renderEvent)).length = events.length ∧
    (eventStreamFrames (events.map renderEvent)).get? i =
      (events.get? i).map (fun ev => sseFrame (renderEvent ev)) ∧
    controllerStreamDeltas ((events.map renderEvent).map some) =
      events.map renderEvent := by
  refine ⟨by simp [eventStreamFrames], ?_, ?_⟩
  · simp only [eventStreamFrames, List.get?_eq_getElem?, List.getElem?_map]
    cases events[i]? <;> rfl
  · simp [controllerStreamDeltas]

/-- C10: syntactically invalid input is handled exactly like
deny-listed code at the public interface: the safety check returns
false and `run` returns the security rejection without executing
anything and without raising. -/
theorem syntax_error_rejected (l : Locals) (p : PltState) :
    isSafeCode .parseFail = false ∧
    sandboxRun .parseFail l p = .ok (securityErrorMsg, l, p) := ⟨rfl, rfl⟩
